import Mathlib

/-!
Shallow embedding of the chart-area layout engine from `src/chart/builder.rs`
(the `ChartBuilder` configuration object and its `build_ranged` routine).

Pixel coordinates are `i32` in the source and drawing-area dimensions are
`u32`; we embed both as `Int` and make the two casts the source performs
explicit (`u32` for `dim_in_pixel`, `i32` for the `as i32` cast on the
dimensions) as reductions modulo 2^32.

The canvas collaborator (`DrawingArea`) is not part of the source under
`src/`; its operations (`margin`, `titled`, `dim_in_pixel`,
`split_by_breakpoints`, `get_pixel_range`, `alter_new`/`make_inset`) are
modelled from the specification, as noted on each definition.
-/

namespace ChartLayout

/-- Axis-aligned pixel rectangle with top-left origin, y growing downward,
given by its two corners (x0, y0) and (x1, y1). -/
structure Rect where
  x0 : Int
  y0 : Int
  x1 : Int
  y1 : Int
deriving DecidableEq, Repr

/-- Width of a rectangle, as a signed difference of corner coordinates. -/
def Rect.w (r : Rect) : Int := r.x1 - r.x0

/-- Height of a rectangle, as a signed difference of corner coordinates. -/
def Rect.h (r : Rect) : Int := r.y1 - r.y0

/-- Value of a Rust `as u32` cast applied to a signed integer. -/
def u32 (z : Int) : Int := z % 4294967296

/-- Value of a Rust `as i32` cast applied to an integer value. -/
def i32 (z : Int) : Int := (z + 2147483648) % 4294967296 - 2147483648

/-- Fixed-size four-element array, mirroring the `[T; 4]` arrays of the
source (indexed by position: 0 = top, 1 = bottom, 2 = left, 3 = right). -/
structure Arr4 (α : Type) where
  v0 : α
  v1 : α
  v2 : α
  v3 : α
deriving DecidableEq, Repr

/-- Read the element of an `Arr4` at an index. -/
def Arr4.get {α : Type} (a : Arr4 α) : Fin 4 → α
  | 0 => a.v0
  | 1 => a.v1
  | 2 => a.v2
  | 3 => a.v3

/-- Replace the element of an `Arr4` at an index. -/
def Arr4.set {α : Type} (a : Arr4 α) : Fin 4 → α → Arr4 α
  | 0, x => { a with v0 := x }
  | 1, x => { a with v1 := x }
  | 2, x => { a with v2 := x }
  | 3, x => { a with v3 := x }

/-- The enum used to specify the position of a label area
(`LabelAreaPosition` in the source, with discriminants 0..3). -/
inductive LabelAreaPosition where
  | Top
  | Bottom
  | Left
  | Right
deriving DecidableEq, Repr

/-- Discriminant of a `LabelAreaPosition` (its `as usize` value). -/
def LabelAreaPosition.index : LabelAreaPosition → Fin 4
  | .Top => 0
  | .Bottom => 1
  | .Left => 2
  | .Right => 3

/-- Configuration state of `ChartBuilder`.  The source additionally holds a
borrowed reference `root_area` to the canvas; here the canvas is passed to
`buildRanged` explicitly.  The text style of the title is an opaque external
type, embedded as the type parameter `σ`. -/
structure ChartBuilder (σ : Type) where
  label_area_size : Arr4 Int
  label_area_inset : Arr4 Bool
  title : Option (String × σ)
  margin : Arr4 Nat
deriving DecidableEq

/-- Initial builder state created by `ChartBuilder::on` (the canvas itself
is supplied later, at build time). -/
def ChartBuilder.on {σ : Type} : ChartBuilder σ :=
  { label_area_size := ⟨0, 0, 0, 0⟩
    label_area_inset := ⟨false, false, false, false⟩
    title := none
    margin := ⟨0, 0, 0, 0⟩ }

/-- Source method `margin`: set all four margins to `size`. -/
def ChartBuilder.marginAll {σ : Type} (b : ChartBuilder σ) (size : Nat) : ChartBuilder σ :=
  { b with margin := ⟨size, size, size, size⟩ }

/-- Source method `margin_top`. -/
def ChartBuilder.margin_top {σ : Type} (b : ChartBuilder σ) (size : Nat) : ChartBuilder σ :=
  { b with margin := { b.margin with v0 := size } }

/-- Source method `margin_bottom`. -/
def ChartBuilder.margin_bottom {σ : Type} (b : ChartBuilder σ) (size : Nat) : ChartBuilder σ :=
  { b with margin := { b.margin with v1 := size } }

/-- Source method `margin_left`. -/
def ChartBuilder.margin_left {σ : Type} (b : ChartBuilder σ) (size : Nat) : ChartBuilder σ :=
  { b with margin := { b.margin with v2 := size } }

/-- Source method `margin_right`. -/
def ChartBuilder.margin_right {σ : Type} (b : ChartBuilder σ) (size : Nat) : ChartBuilder σ :=
  { b with margin := { b.margin with v3 := size } }

/-- Source method `x_label_area_size` (bottom label area height). -/
def ChartBuilder.x_label_area_size {σ : Type} (b : ChartBuilder σ) (size : Int) : ChartBuilder σ :=
  { b with label_area_size := { b.label_area_size with v1 := size } }

/-- Source method `inset_x_labels`. -/
def ChartBuilder.inset_x_labels {σ : Type} (b : ChartBuilder σ) : ChartBuilder σ :=
  { b with label_area_inset := { b.label_area_inset with v1 := true } }

/-- Source method `y_label_area_size` (left label area width). -/
def ChartBuilder.y_label_area_size {σ : Type} (b : ChartBuilder σ) (size : Int) : ChartBuilder σ :=
  { b with label_area_size := { b.label_area_size with v2 := size } }

/-- Source method `inset_y_labels`. -/
def ChartBuilder.inset_y_labels {σ : Type} (b : ChartBuilder σ) : ChartBuilder σ :=
  { b with label_area_inset := { b.label_area_inset with v2 := true } }

/-- Source method `top_x_label_area_size`. -/
def ChartBuilder.top_x_label_area_size {σ : Type} (b : ChartBuilder σ) (size : Int) : ChartBuilder σ :=
  { b with label_area_size := { b.label_area_size with v0 := size } }

/-- Source method `inset_top_x_labels`. -/
def ChartBuilder.inset_top_x_labels {σ : Type} (b : ChartBuilder σ) : ChartBuilder σ :=
  { b with label_area_inset := { b.label_area_inset with v0 := true } }

/-- Source method `right_y_label_area_size`. -/
def ChartBuilder.right_y_label_area_size {σ : Type} (b : ChartBuilder σ) (size : Int) : ChartBuilder σ :=
  { b with label_area_size := { b.label_area_size with v3 := size } }

/-- Source method `inset_right_y_labels`. -/
def ChartBuilder.inset_right_y_labels {σ : Type} (b : ChartBuilder σ) : ChartBuilder σ :=
  { b with label_area_inset := { b.label_area_inset with v3 := true } }

/-- Helper used to express updates of one label-area size slot by index. -/
def ChartBuilder.setSizeIdx {σ : Type} (b : ChartBuilder σ) (idx : Fin 4) (size : Int) :
    ChartBuilder σ :=
  { b with label_area_size := b.label_area_size.set idx size }

/-- Source method `set_label_area_size`: write the size slot selected by the
discriminant of `pos`. -/
def ChartBuilder.set_label_area_size {σ : Type} (b : ChartBuilder σ)
    (pos : LabelAreaPosition) (size : Int) : ChartBuilder σ :=
  b.setSizeIdx pos.index size

/-- Source method `caption`: set the optional title to the given text and
style. -/
def ChartBuilder.caption {σ : Type} (b : ChartBuilder σ) (text : String) (style : σ) :
    ChartBuilder σ :=
  { b with title := some (text, style) }

/-- Modelled from the spec: the canvas collaborator operation
`margin(top, bottom, left, right) -> Canvas`, which applies four
non-negative pixel insets to the canvas ("four non-negative pixel insets
applied once to the canvas before anything else"). -/
def Rect.applyMargin (r : Rect) (t b l rt : Int) : Rect :=
  ⟨r.x0 + l, r.y0 + t, r.x1 - rt, r.y1 - b⟩

/-- Modelled from the spec: the canvas collaborator operation
`titled(text, style) -> Result<Canvas, BackendError>`.  The title consumes
vertical space at the top of the canvas; how much it consumes depends on
external text measurement and backend drawing, embedded here as the
fallible input `measure` producing the consumed height. -/
def Rect.titled {ε : Type} (r : Rect) (measure : Except ε Nat) : Except ε Rect :=
  match measure with
  | .error e => .error e
  | .ok th => .ok ⟨r.x0, r.y0 + th, r.x1, r.y1⟩

/-- Largest of the four configured margins
(`self.margin.iter().max().unwrap_or(&0)` in the source). -/
def ChartBuilder.maxMargin {σ : Type} (b : ChartBuilder σ) : Nat :=
  max (max b.margin.v0 b.margin.v1) (max b.margin.v2 b.margin.v3)

/-- Margin-application and title-application phase of `build_ranged`
(source lines 162-175): the margin is applied when some margin is positive,
then the title, when one is set, consumes vertical space fallibly. -/
def postCanvas {σ ε : Type} (b : ChartBuilder σ) (canvas : Rect)
    (measure : Except ε Nat) : Except ε Rect :=
  let da := if 0 < b.maxMargin then
      canvas.applyMargin (i32 b.margin.v0) (i32 b.margin.v1) (i32 b.margin.v2) (i32 b.margin.v3)
    else canvas
  match b.title with
  | some _ => da.titled measure
  | none => .ok da

/-- Outward direction vector of each label-area position, the table
`[(0, -1), (0, 1), (-1, 0), (1, 0)]` from the source. -/
def dir : Fin 4 → Int × Int
  | 0 => (0, -1)
  | 1 => (0, 1)
  | 2 => (-1, 0)
  | 3 => (1, 0)

/-- Split offset computed per position in `build_ranged`: for a non-inset
position it is `size` when the direction sum is negative (Top, Left) and
`-size` otherwise (Bottom, Right); for an inset position it is 0. -/
def splitPointOf (inset : Bool) (idx : Fin 4) (size : Int) : Int :=
  if inset = false then
    (if (dir idx).1 + (dir idx).2 < 0 then size else -size)
  else 0

/-- Initial value of `actual_drawing_area_pos`: `[0, h as i32, 0, w as i32]`
where `w` and `h` are the post-margin/title canvas dimensions. -/
def initialPos (w h : Int) : Fin 4 → Int
  | 0 => 0
  | 1 => h
  | 2 => 0
  | 3 => w

/-- Final value of `actual_drawing_area_pos[idx]`: the initial edge
coordinate plus the split offset of that position. -/
def actualPos {σ : Type} (b : ChartBuilder σ) (w h : Int) (idx : Fin 4) : Int :=
  initialPos w h idx +
    splitPointOf (b.label_area_inset.get idx) idx (b.label_area_size.get idx)

/-- Modelled from the spec: x-axis cell boundaries of
`split_by_breakpoints` which receives `actual_drawing_area_pos[2..4]` as
x breakpoints, taken as offsets from the area origin ("splits a rectangle
into a grid using ordered breakpoints on each axis"). -/
def xBound (da : Rect) (p : Fin 4 → Int) : Fin 4 → Int
  | 0 => da.x0
  | 1 => da.x0 + p 2
  | 2 => da.x0 + p 3
  | 3 => da.x1

/-- Modelled from the spec: y-axis cell boundaries of
`split_by_breakpoints` which receives `actual_drawing_area_pos[0..2]` as
y breakpoints, taken as offsets from the area origin. -/
def yBound (da : Rect) (p : Fin 4 → Int) : Fin 4 → Int
  | 0 => da.y0
  | 1 => da.y0 + p 0
  | 2 => da.y0 + p 1
  | 3 => da.y1

/-- Cell of the 3-by-3 grid produced by `split_by_breakpoints`; the source
index into the flattened `splitted` vector is `row * 3 + col`. -/
def gridCell (da : Rect) (p : Fin 4 → Int) (row col : Fin 3) : Rect :=
  ⟨xBound da p col.castSucc, yBound da p row.castSucc,
   xBound da p col.succ, yBound da p row.succ⟩

/-- Band cell adjacent to the center for each position: the source draws
them from `splitted` indices `[1, 7, 3, 5]`, that is grid cells (0,1),
(2,1), (1,0) and (1,2). -/
def bandCell (da : Rect) (p : Fin 4 → Int) : Fin 4 → Rect
  | 0 => gridCell da p 0 1
  | 1 => gridCell da p 2 1
  | 2 => gridCell da p 1 0
  | 3 => gridCell da p 1 2

/-- Band extraction of `build_ranged` (source lines 205-210): a band is
kept only when both of its `u32` pixel dimensions are positive. -/
def band (da : Rect) (p : Fin 4 → Int) (idx : Fin 4) : Option Rect :=
  let c := bandCell da p idx
  if 0 < u32 c.w ∧ 0 < u32 c.h then some c else none

/-- Modelled from the spec: the inset label rectangle carved by the
`alter_new`/`make_inset` collaborator calls, whose code is not under
`src/`.  Per the spec it is the sub-rectangle of the interior flush
against the edge of the given position, with thickness `size` along the
axis of that position and full span along the perpendicular axis. -/
def insetRect (interior : Rect) (idx : Fin 4) (size : Int) : Rect :=
  match idx with
  | 0 => ⟨interior.x0, interior.y0, interior.x1, interior.y0 + size⟩
  | 1 => ⟨interior.x0, interior.y1 - size, interior.x1, interior.y1⟩
  | 2 => ⟨interior.x0, interior.y0, interior.x0 + size, interior.y1⟩
  | 3 => ⟨interior.x1 - size, interior.y0, interior.x1, interior.y1⟩

/-- Final label-area slot of each position (source lines 205-235): an inset
position with nonzero size receives the inset rectangle carved from the
interior cell; every other position receives its band when non-degenerate. -/
def labelArea {σ : Type} (b : ChartBuilder σ) (da : Rect) (p : Fin 4 → Int)
    (idx : Fin 4) : Option Rect :=
  if b.label_area_inset.get idx = true ∧ b.label_area_size.get idx ≠ 0 then
    some (insetRect (gridCell da p 1 1) idx (b.label_area_size.get idx))
  else band da p idx

/-- Result of a successful build: the four optional label areas grouped as
in the source (`x_label_area` = top and bottom, `y_label_area` = left and
right), the plot rectangle, and the pixel-range pair handed to
`RangedCoord::new` after the y range has been reversed. -/
structure ChartContext where
  x_label_area : Option Rect × Option Rect
  y_label_area : Option Rect × Option Rect
  plot : Rect
  pixel_range : (Int × Int) × (Int × Int)
deriving DecidableEq, Repr

/-- Slot of a `ChartContext` by position index. -/
def ChartContext.slot (c : ChartContext) : Fin 4 → Option Rect
  | 0 => c.x_label_area.1
  | 1 => c.x_label_area.2
  | 2 => c.y_label_area.1
  | 3 => c.y_label_area.2

/-- Infallible remainder of `build_ranged` after margin and title have been
applied (source lines 177-259): computes breakpoints, splits the canvas,
resolves label areas, takes the center cell as the plot region, and forms
the pixel-range pair with the y range reversed end-to-start. -/
def assemble {σ : Type} (b : ChartBuilder σ) (da : Rect) : ChartContext :=
  let w : Int := i32 (u32 da.w)
  let h : Int := i32 (u32 da.h)
  let p : Fin 4 → Int := actualPos b w h
  let interior : Rect := gridCell da p 1 1
  { x_label_area := (labelArea b da p 0, labelArea b da p 1)
    y_label_area := (labelArea b da p 2, labelArea b da p 3)
    plot := interior
    pixel_range := ((interior.x0, interior.x1), (interior.y1, interior.y0)) }

/-- Embedding of `build_ranged`.  The source method takes `&mut self` but
never writes a field of `self`; the first component of the result is the
builder state as left behind by the call.  The second component is the
built context, or the backend error propagated unchanged from the title
step. -/
def buildRanged {σ ε : Type} (b : ChartBuilder σ) (canvas : Rect)
    (measure : Except ε Nat) : ChartBuilder σ × Except ε ChartContext :=
  (b, Except.map (assemble b) (postCanvas b canvas measure))

/-! Theorems. -/

/-- Both casts compose to the identity on values representable as
non-negative `i32` quantities. -/
theorem i32_u32_of_range (z : Int) (h0 : 0 ≤ z) (h1 : z < 2147483648) :
    i32 (u32 z) = z := by
  unfold i32 u32
  omega

/-- Inversion of a successful build: the margin/title phase succeeded on
some canvas and the context is assembled from it. -/
theorem build_ok_elim {σ ε : Type} {b : ChartBuilder σ} {canvas : Rect}
    {measure : Except ε Nat} {ctx : ChartContext}
    (hok : (buildRanged b canvas measure).2 = Except.ok ctx) :
    ∃ da, postCanvas b canvas measure = Except.ok da ∧ ctx = assemble b da := by
  unfold buildRanged at hok
  rcases hpc : postCanvas b canvas measure with e | da
  · rw [hpc] at hok
    simp [Except.map] at hok
  · rw [hpc] at hok
    simp [Except.map] at hok
    exact ⟨da, rfl, hok.symm⟩

/-- Zero label size always yields a zero split offset. -/
theorem splitPointOf_zero (i : Bool) (idx : Fin 4) : splitPointOf i idx 0 = 0 := by
  unfold splitPointOf
  cases i <;> simp

/-- C5: in breakpoint derivation, the split offset added to the
corresponding interior bound coordinate is `+size` for the non-inset Top
and Left positions, `-size` for the non-inset Bottom and Right positions,
and 0 for any inset position, and the final breakpoint value is the initial
edge coordinate plus that offset. -/
theorem C5_split_offsets (s : Int) :
    splitPointOf false 0 s = s ∧
    splitPointOf false 2 s = s ∧
    splitPointOf false 1 s = -s ∧
    splitPointOf false 3 s = -s ∧
    (∀ idx : Fin 4, splitPointOf true idx s = 0) ∧
    (∀ {σ : Type} (b : ChartBuilder σ) (w h : Int) (idx : Fin 4),
      actualPos b w h idx = initialPos w h idx +
        splitPointOf (b.label_area_inset.get idx) idx (b.label_area_size.get idx)) := by
  refine ⟨by simp [splitPointOf, dir], by simp [splitPointOf, dir],
    by simp [splitPointOf, dir], by simp [splitPointOf, dir],
    fun idx => by simp [splitPointOf], fun b w h idx => rfl⟩

/-- C9: `margin` is state-equal to the four per-side margin setters in
sequence, a later per-side margin call overwrites an earlier one for that
side, and consequently the builds coincide. -/
theorem C9_margin_equiv {σ ε : Type} (b : ChartBuilder σ) (s a c : Nat)
    (canvas : Rect) (measure : Except ε Nat) :
    b.marginAll s = (((b.margin_top s).margin_bottom s).margin_left s).margin_right s ∧
    (b.margin_top a).margin_top c = b.margin_top c ∧
    (b.margin_bottom a).margin_bottom c = b.margin_bottom c ∧
    (b.margin_left a).margin_left c = b.margin_left c ∧
    (b.margin_right a).margin_right c = b.margin_right c ∧
    buildRanged (b.marginAll s) canvas measure =
      buildRanged ((((b.margin_top s).margin_bottom s).margin_left s).margin_right s)
        canvas measure :=
  ⟨rfl, rfl, rfl, rfl, rfl, rfl⟩

/-- C10: `set_label_area_size` agrees with the dedicated setter of each
position, and the size setters leave the inset flags, the margins, the
title and every other size slot unchanged. -/
theorem C10_size_setter_equiv {σ : Type} (b : ChartBuilder σ) (s : Int)
    (pos : LabelAreaPosition) :
    b.set_label_area_size .Top s = b.top_x_label_area_size s ∧
    b.set_label_area_size .Bottom s = b.x_label_area_size s ∧
    b.set_label_area_size .Left s = b.y_label_area_size s ∧
    b.set_label_area_size .Right s = b.right_y_label_area_size s ∧
    (b.set_label_area_size pos s).label_area_inset = b.label_area_inset ∧
    (b.set_label_area_size pos s).margin = b.margin ∧
    (b.set_label_area_size pos s).title = b.title ∧
    (∀ idx : Fin 4, (b.set_label_area_size pos s).label_area_size.get idx =
      if idx = pos.index then s else b.label_area_size.get idx) := by
  refine ⟨rfl, rfl, rfl, rfl, rfl, rfl, rfl, ?_⟩
  intro idx
  cases pos <;> fin_cases idx <;> rfl

/-- C2: build fails exactly when the title-application step of the canvas
collaborator fails (the margin step is infallible and always succeeds), the
backend cause is surfaced unchanged, the result type carries no partial
context on failure, and the builder state left behind by the call is the
state it had before; no geometry, splitting, assembly or binding step can
fail. -/
theorem C2_error_propagation {σ ε : Type} (b : ChartBuilder σ) (canvas : Rect)
    (measure : Except ε Nat) (e : ε) :
    ((buildRanged b canvas measure).2 = Except.error e ↔
      b.title.isSome = true ∧ measure = Except.error e) ∧
    (buildRanged b canvas measure).1 = b := by
  refine ⟨?_, rfl⟩
  rcases htitle : b.title with _ | ⟨t, st⟩ <;>
    rcases measure with e2 | th <;>
      simp [buildRanged, postCanvas, Rect.titled, Except.map, htitle]

/-- C6: on an 800 by 600 canvas with bottom label size 50 and left label
size 60, no margins, no title and no insets, the build yields an interior
of width 740 and height 550, a left label area of 60 by 550, and a bottom
label area of 740 by 50. -/
theorem C6_concrete_layout :
    ∃ ctx, (buildRanged ((ChartBuilder.on.x_label_area_size 50).y_label_area_size 60 :
        ChartBuilder Unit) ⟨0, 0, 800, 600⟩ (Except.ok 0 : Except Nat Nat)).2 =
      Except.ok ctx ∧
      ctx.plot.w = 740 ∧ ctx.plot.h = 550 ∧
      (∃ r, ctx.y_label_area.1 = some r ∧ r.w = 60 ∧ r.h = 550) ∧
      (∃ r, ctx.x_label_area.2 = some r ∧ r.w = 740 ∧ r.h = 50) := by
  refine ⟨{ x_label_area := (none, some ⟨60, 550, 800, 600⟩),
            y_label_area := (some ⟨0, 0, 60, 550⟩, none),
            plot := ⟨60, 0, 800, 550⟩,
            pixel_range := ((60, 800), (550, 0)) }, rfl, by decide, by decide,
    ⟨⟨0, 0, 60, 550⟩, rfl, by decide, by decide⟩,
    ⟨⟨60, 550, 800, 600⟩, rfl, by decide, by decide⟩⟩

/-- C7: for a successful build with non-degenerate interior, the pixel
range bound to the coordinate system is the x interval from x0 to x1 of the
interior and the y interval reversed end-to-start, from y1 down to y0. -/
theorem C7_pixel_range {σ ε : Type} (b : ChartBuilder σ) (canvas : Rect)
    (measure : Except ε Nat) (ctx : ChartContext)
    (hx : ctx.plot.x0 < ctx.plot.x1) (hy : ctx.plot.y0 < ctx.plot.y1)
    (hok : (buildRanged b canvas measure).2 = Except.ok ctx) :
    ctx.pixel_range = ((ctx.plot.x0, ctx.plot.x1), (ctx.plot.y1, ctx.plot.y0)) := by
  obtain ⟨da, hpc, rfl⟩ := build_ok_elim hok
  rfl

/-- Witness for C7, at a 400 by 300 canvas with a left label area of
width 60. -/
theorem C7_pixel_range_witness :
    (60 : Int) < 400 ∧ (0 : Int) < 300 ∧
    (buildRanged (ChartBuilder.on.y_label_area_size 60 : ChartBuilder Unit)
        ⟨0, 0, 400, 300⟩ (Except.ok 0 : Except Nat Nat)).2 =
      Except.ok { x_label_area := (none, none),
                  y_label_area := (some ⟨0, 0, 60, 300⟩, none),
                  plot := ⟨60, 0, 400, 300⟩,
                  pixel_range := ((60, 400), (300, 0)) } ∧
    ({ x_label_area := (none, none),
       y_label_area := (some ⟨0, 0, 60, 300⟩, none),
       plot := ⟨60, 0, 400, 300⟩,
       pixel_range := ((60, 400), (300, 0)) } : ChartContext).pixel_range =
      ((60, 400), (300, 0)) :=
  ⟨by decide, by decide, rfl,
    C7_pixel_range (ChartBuilder.on.y_label_area_size 60 : ChartBuilder Unit)
      ⟨0, 0, 400, 300⟩ (Except.ok 0 : Except Nat Nat) _ (by decide) (by decide) rfl⟩

/-- C8: caption and margin commute as configuration calls, and the build
applies the margin to the canvas first and the title second, so the final
interior accounts for both in that order. -/
theorem C8_margin_title_order {σ ε : Type} (b : ChartBuilder σ) (text : String)
    (style : σ) (m : Nat) (canvas : Rect) (th : Nat) :
    (b.caption text style).marginAll m = (b.marginAll m).caption text style ∧
    postCanvas ((b.caption text style).marginAll m) canvas (Except.ok th : Except ε Nat) =
      (canvas.applyMargin (i32 m) (i32 m) (i32 m) (i32 m)).titled
        (Except.ok th : Except ε Nat) ∧
    (buildRanged ((b.caption text style).marginAll m) canvas
        (Except.ok th : Except ε Nat)).2 =
      (buildRanged ((b.marginAll m).caption text style) canvas
        (Except.ok th : Except ε Nat)).2 := by
  refine ⟨rfl, ?_, rfl⟩
  by_cases hm : 0 < m
  · simp [postCanvas, ChartBuilder.maxMargin, ChartBuilder.marginAll,
      ChartBuilder.caption, hm, Rect.titled]
  · have hm0 : m = 0 := by omega
    subst hm0
    simp [postCanvas, ChartBuilder.maxMargin, ChartBuilder.marginAll,
      ChartBuilder.caption, Rect.titled, Rect.applyMargin, i32]

/-- Shape of the plot rectangle produced by assembly: the center grid cell,
bounded by the four breakpoints. -/
theorem assemble_plot {σ : Type} (b : ChartBuilder σ) (da : Rect) :
    (assemble b da).plot =
      ⟨da.x0 + actualPos b (i32 (u32 da.w)) (i32 (u32 da.h)) 2,
       da.y0 + actualPos b (i32 (u32 da.w)) (i32 (u32 da.h)) 0,
       da.x0 + actualPos b (i32 (u32 da.w)) (i32 (u32 da.h)) 3,
       da.y0 + actualPos b (i32 (u32 da.w)) (i32 (u32 da.h)) 1⟩ := rfl

/-- C3 (amended): for non-negative, non-inset label sizes whose per-axis
sums fit in the post-margin/title canvas, provided the post-margin/title
canvas extents are representable as non-negative `i32` values, the interior
extent plus the sum of carved sizes on each axis equals the
post-margin/title canvas extent on that axis.  Without the representability
bound the claim fails: the `as i32` cast of the `u32` dimensions wraps (see
the counterexample below). -/
theorem C3_axis_sum {σ ε : Type} (b : ChartBuilder σ) (canvas : Rect)
    (measure : Except ε Nat) (da : Rect) (ctx : ChartContext)
    (hins : b.label_area_inset = ⟨false, false, false, false⟩)
    (hnn : ∀ idx : Fin 4, 0 ≤ b.label_area_size.get idx)
    (hpc : postCanvas b canvas measure = Except.ok da)
    (hw0 : 0 ≤ da.w) (hw1 : da.w < 2147483648)
    (hh0 : 0 ≤ da.h) (hh1 : da.h < 2147483648)
    (hsx : b.label_area_size.get 2 + b.label_area_size.get 3 ≤ da.w)
    (hsy : b.label_area_size.get 0 + b.label_area_size.get 1 ≤ da.h)
    (hok : (buildRanged b canvas measure).2 = Except.ok ctx) :
    ctx.plot.w + (b.label_area_size.get 2 + b.label_area_size.get 3) = da.w ∧
    ctx.plot.h + (b.label_area_size.get 0 + b.label_area_size.get 1) = da.h := by
  obtain ⟨da2, hpc2, rfl⟩ := build_ok_elim hok
  rw [hpc] at hpc2
  injection hpc2 with hda
  subst hda
  rw [assemble_plot]
  have hw : i32 (u32 (da.x1 - da.x0)) = da.x1 - da.x0 :=
    i32_u32_of_range (da.x1 - da.x0) hw0 hw1
  have hh : i32 (u32 (da.y1 - da.y0)) = da.y1 - da.y0 :=
    i32_u32_of_range (da.y1 - da.y0) hh0 hh1
  simp [Rect.w, Rect.h, actualPos, initialPos, splitPointOf, dir, hins, Arr4.get, hw, hh]
  omega

/-- Counterexample to C3 as stated: on a canvas of width 2^31 (corners at
x = -2^31 and x = 0, both representable as `i32`) with every label size
zero and non-inset — an input satisfying all side conditions of the claim —
the `as i32` cast of the `u32` width wraps, the build succeeds with an
interior of width -2^31, and the axis-sum equality fails. -/
theorem C3_counterexample :
    (ChartBuilder.on : ChartBuilder Unit).label_area_inset =
      ⟨false, false, false, false⟩ ∧
    (∀ idx : Fin 4, 0 ≤ (ChartBuilder.on : ChartBuilder Unit).label_area_size.get idx) ∧
    postCanvas (ChartBuilder.on : ChartBuilder Unit) ⟨-2147483648, 0, 0, 10⟩
        (Except.ok 0 : Except Nat Nat) = Except.ok (⟨-2147483648, 0, 0, 10⟩ : Rect) ∧
    (ChartBuilder.on : ChartBuilder Unit).label_area_size.get 2 +
        (ChartBuilder.on : ChartBuilder Unit).label_area_size.get 3 ≤
      (⟨-2147483648, 0, 0, 10⟩ : Rect).w ∧
    (ChartBuilder.on : ChartBuilder Unit).label_area_size.get 0 +
        (ChartBuilder.on : ChartBuilder Unit).label_area_size.get 1 ≤
      (⟨-2147483648, 0, 0, 10⟩ : Rect).h ∧
    (buildRanged (ChartBuilder.on : ChartBuilder Unit) ⟨-2147483648, 0, 0, 10⟩
        (Except.ok 0 : Except Nat Nat)).2 =
      Except.ok { x_label_area := (none, none), y_label_area := (none, none),
                  plot := ⟨-2147483648, 0, -4294967296, 10⟩,
                  pixel_range := ((-2147483648, -4294967296), (10, 0)) } ∧
    ¬ (({ x_label_area := (none, none), y_label_area := (none, none),
          plot := ⟨-2147483648, 0, -4294967296, 10⟩,
          pixel_range := ((-2147483648, -4294967296), (10, 0)) } : ChartContext).plot.w +
        ((ChartBuilder.on : ChartBuilder Unit).label_area_size.get 2 +
          (ChartBuilder.on : ChartBuilder Unit).label_area_size.get 3) =
      (⟨-2147483648, 0, 0, 10⟩ : Rect).w) :=
  ⟨rfl, by decide, rfl, by decide, by decide, rfl, by decide⟩

/-- Label-area slot of an assembled context, by position. -/
theorem slot_assemble {σ : Type} (b : ChartBuilder σ) (da : Rect) (idx : Fin 4) :
    (assemble b da).slot idx =
      labelArea b da (actualPos b (i32 (u32 da.w)) (i32 (u32 da.h))) idx := by
  fin_cases idx <;> rfl

/-- Center cell of the split grid. -/
theorem gridCell_center (da : Rect) (p : Fin 4 → Int) :
    gridCell da p 1 1 = ⟨da.x0 + p 2, da.y0 + p 0, da.x0 + p 3, da.y0 + p 1⟩ := rfl

/-- Top band cell of the split grid. -/
theorem bandCell_0 (da : Rect) (p : Fin 4 → Int) :
    bandCell da p 0 = ⟨da.x0 + p 2, da.y0, da.x0 + p 3, da.y0 + p 0⟩ := rfl

/-- Bottom band cell of the split grid. -/
theorem bandCell_1 (da : Rect) (p : Fin 4 → Int) :
    bandCell da p 1 = ⟨da.x0 + p 2, da.y0 + p 1, da.x0 + p 3, da.y1⟩ := rfl

/-- Left band cell of the split grid. -/
theorem bandCell_2 (da : Rect) (p : Fin 4 → Int) :
    bandCell da p 2 = ⟨da.x0, da.y0 + p 0, da.x0 + p 2, da.y0 + p 1⟩ := rfl

/-- Right band cell of the split grid. -/
theorem bandCell_3 (da : Rect) (p : Fin 4 → Int) :
    bandCell da p 3 = ⟨da.x0 + p 3, da.y0 + p 0, da.x1, da.y0 + p 1⟩ := rfl

/-- Breakpoint value at the top position. -/
theorem actualPos_0 {σ : Type} (b : ChartBuilder σ) (w h : Int) :
    actualPos b w h 0 =
      0 + splitPointOf (b.label_area_inset.get 0) 0 (b.label_area_size.get 0) := rfl

/-- Breakpoint value at the bottom position. -/
theorem actualPos_1 {σ : Type} (b : ChartBuilder σ) (w h : Int) :
    actualPos b w h 1 =
      h + splitPointOf (b.label_area_inset.get 1) 1 (b.label_area_size.get 1) := rfl

/-- Breakpoint value at the left position. -/
theorem actualPos_2 {σ : Type} (b : ChartBuilder σ) (w h : Int) :
    actualPos b w h 2 =
      0 + splitPointOf (b.label_area_inset.get 2) 2 (b.label_area_size.get 2) := rfl

/-- Breakpoint value at the right position. -/
theorem actualPos_3 {σ : Type} (b : ChartBuilder σ) (w h : Int) :
    actualPos b w h 3 =
      w + splitPointOf (b.label_area_inset.get 3) 3 (b.label_area_size.get 3) := rfl

/-- C4: a position whose configured size is zero yields no label rectangle,
whether or not its inset flag is set. -/
theorem C4_zero_size_absent {σ ε : Type} (b : ChartBuilder σ) (canvas : Rect)
    (measure : Except ε Nat) (da : Rect) (ctx : ChartContext) (pos : Fin 4)
    (hpc : postCanvas b canvas measure = Except.ok da)
    (hw0 : 0 ≤ da.w) (hw1 : da.w < 2147483648)
    (hh0 : 0 ≤ da.h) (hh1 : da.h < 2147483648)
    (hsz : b.label_area_size.get pos = 0)
    (hok : (buildRanged b canvas measure).2 = Except.ok ctx) :
    ctx.slot pos = none := by
  obtain ⟨da2, hpc2, rfl⟩ := build_ok_elim hok
  rw [hpc] at hpc2
  injection hpc2 with hda
  subst hda
  have hw : i32 ((da.x1 - da.x0) % 4294967296) = da.x1 - da.x0 :=
    i32_u32_of_range (da.x1 - da.x0) hw0 hw1
  have hh : i32 ((da.y1 - da.y0) % 4294967296) = da.y1 - da.y0 :=
    i32_u32_of_range (da.y1 - da.y0) hh0 hh1
  rw [slot_assemble]
  have hcases : pos = 0 ∨ pos = 1 ∨ pos = 2 ∨ pos = 3 := by
    fin_cases pos <;> decide
  rcases hcases with h | h | h | h <;> subst h
  · simp only [labelArea, hsz]
    rw [if_neg (fun hcon => absurd rfl hcon.2)]
    simp only [band, bandCell_0, actualPos_0, hsz, splitPointOf_zero, Rect.w, Rect.h, u32]
    rw [if_neg (by omega)]
  · simp only [labelArea, hsz]
    rw [if_neg (fun hcon => absurd rfl hcon.2)]
    simp only [band, bandCell_1, actualPos_1, hsz, splitPointOf_zero, Rect.w, Rect.h, hh, u32]
    rw [if_neg (by omega)]
  · simp only [labelArea, hsz]
    rw [if_neg (fun hcon => absurd rfl hcon.2)]
    simp only [band, bandCell_2, actualPos_2, hsz, splitPointOf_zero, Rect.w, Rect.h, u32]
    rw [if_neg (by omega)]
  · simp only [labelArea, hsz]
    rw [if_neg (fun hcon => absurd rfl hcon.2)]
    simp only [band, bandCell_3, actualPos_3, hsz, splitPointOf_zero, Rect.w, Rect.h, hw, u32]
    rw [if_neg (by omega)]

/-- Extent of a rectangle along the axis of a position: height for the top
and bottom positions, width for the left and right ones. -/
def axisExtent : Fin 4 → Rect → Int
  | 0, r => r.h
  | 1, r => r.h
  | 2, r => r.w
  | 3, r => r.w

/-- Containment of one rectangle in the bounding box of another. -/
def rectWithin (inner outer : Rect) : Prop :=
  outer.x0 ≤ inner.x0 ∧ inner.x1 ≤ outer.x1 ∧ outer.y0 ≤ inner.y0 ∧ inner.y1 ≤ outer.y1

/-- Full span along the axis perpendicular to a position. -/
def fullPerpSpan (idx : Fin 4) (r outer : Rect) : Prop :=
  if idx.val ≤ 1 then r.x0 = outer.x0 ∧ r.x1 = outer.x1
  else r.y0 = outer.y0 ∧ r.y1 = outer.y1

/-- Flush contact with the edge of the outer rectangle at a position. -/
def flushAtEdge (idx : Fin 4) (r outer : Rect) : Prop :=
  if idx.val = 0 then r.y0 = outer.y0
  else if idx.val = 1 then r.y1 = outer.y1
  else if idx.val = 2 then r.x0 = outer.x0
  else r.x1 = outer.x1

/-- An inset position contributes a zero split offset. -/
theorem splitPointOf_inset (idx : Fin 4) (s : Int) : splitPointOf true idx s = 0 := rfl

/-- Changing the configured size of an inset position does not move the
interior rectangle. -/
theorem plot_setSizeIdx_inset {σ : Type} (b : ChartBuilder σ) (da : Rect) (pos : Fin 4)
    (hins : b.label_area_inset.get pos = true) (v : Int) :
    (assemble (b.setSizeIdx pos v) da).plot = (assemble b da).plot := by
  have hcases : pos = 0 ∨ pos = 1 ∨ pos = 2 ∨ pos = 3 := by
    fin_cases pos <;> decide
  rcases hcases with h | h | h | h <;> subst h
  · have hv : b.label_area_inset.v0 = true := hins
    rw [assemble_plot, assemble_plot]
    simp only [actualPos_0, actualPos_1, actualPos_2, actualPos_3, ChartBuilder.setSizeIdx,
      Arr4.set, Arr4.get, hv, splitPointOf_inset]
  · have hv : b.label_area_inset.v1 = true := hins
    rw [assemble_plot, assemble_plot]
    simp only [actualPos_0, actualPos_1, actualPos_2, actualPos_3, ChartBuilder.setSizeIdx,
      Arr4.set, Arr4.get, hv, splitPointOf_inset]
  · have hv : b.label_area_inset.v2 = true := hins
    rw [assemble_plot, assemble_plot]
    simp only [actualPos_0, actualPos_1, actualPos_2, actualPos_3, ChartBuilder.setSizeIdx,
      Arr4.set, Arr4.get, hv, splitPointOf_inset]
  · have hv : b.label_area_inset.v3 = true := hins
    rw [assemble_plot, assemble_plot]
    simp only [actualPos_0, actualPos_1, actualPos_2, actualPos_3, ChartBuilder.setSizeIdx,
      Arr4.set, Arr4.get, hv, splitPointOf_inset]

/-- C1 (amended): for an inset position with positive size that does not
exceed the interior extent on its axis, the produced label rectangle is the
inset carve of the interior: contained in the interior bounding box, of
thickness exactly `size` along the axis of the position, spanning the full
perpendicular extent, flush against the corresponding interior edge; and
the interior itself is the same as in a build without that label area. -/
theorem C1_amended {σ ε : Type} (b : ChartBuilder σ) (canvas : Rect)
    (measure : Except ε Nat) (pos : Fin 4) (ctx : ChartContext)
    (hins : b.label_area_inset.get pos = true)
    (hpos : 0 < b.label_area_size.get pos)
    (hok : (buildRanged b canvas measure).2 = Except.ok ctx)
    (hfit : b.label_area_size.get pos ≤ axisExtent pos ctx.plot) :
    ctx.slot pos = some (insetRect ctx.plot pos (b.label_area_size.get pos)) ∧
    rectWithin (insetRect ctx.plot pos (b.label_area_size.get pos)) ctx.plot ∧
    axisExtent pos (insetRect ctx.plot pos (b.label_area_size.get pos)) =
      b.label_area_size.get pos ∧
    fullPerpSpan pos (insetRect ctx.plot pos (b.label_area_size.get pos)) ctx.plot ∧
    flushAtEdge pos (insetRect ctx.plot pos (b.label_area_size.get pos)) ctx.plot ∧
    Except.map ChartContext.plot ((buildRanged (b.setSizeIdx pos 0) canvas measure).2) =
      Except.ok ctx.plot := by
  obtain ⟨da, hpc, rfl⟩ := build_ok_elim hok
  have hcases : pos = 0 ∨ pos = 1 ∨ pos = 2 ∨ pos = 3 := by
    fin_cases pos <;> decide
  rcases hcases with h | h | h | h <;> subst h
  · refine ⟨?_, ?_, ?_, ⟨rfl, rfl⟩, rfl, ?_⟩
    · rw [slot_assemble]
      simp only [labelArea]
      rw [if_pos ⟨hins, by omega⟩, assemble_plot, gridCell_center]
    · simp only [axisExtent, insetRect, rectWithin, Rect.w, Rect.h] at hfit ⊢
      omega
    · simp only [axisExtent, insetRect, Rect.w, Rect.h]
      omega
    · have hpc2 : postCanvas (b.setSizeIdx 0 0) canvas measure =
          postCanvas b canvas measure := rfl
      simp only [buildRanged, hpc2, hpc, Except.map]
      rw [plot_setSizeIdx_inset b da 0 hins 0]
  · refine ⟨?_, ?_, ?_, ⟨rfl, rfl⟩, rfl, ?_⟩
    · rw [slot_assemble]
      simp only [labelArea]
      rw [if_pos ⟨hins, by omega⟩, assemble_plot, gridCell_center]
    · simp only [axisExtent, insetRect, rectWithin, Rect.w, Rect.h] at hfit ⊢
      omega
    · simp only [axisExtent, insetRect, Rect.w, Rect.h]
      omega
    · have hpc2 : postCanvas (b.setSizeIdx 1 0) canvas measure =
          postCanvas b canvas measure := rfl
      simp only [buildRanged, hpc2, hpc, Except.map]
      rw [plot_setSizeIdx_inset b da 1 hins 0]
  · refine ⟨?_, ?_, ?_, ⟨rfl, rfl⟩, rfl, ?_⟩
    · rw [slot_assemble]
      simp only [labelArea]
      rw [if_pos ⟨hins, by omega⟩, assemble_plot, gridCell_center]
    · simp only [axisExtent, insetRect, rectWithin, Rect.w, Rect.h] at hfit ⊢
      omega
    · simp only [axisExtent, insetRect, Rect.w, Rect.h]
      omega
    · have hpc2 : postCanvas (b.setSizeIdx 2 0) canvas measure =
          postCanvas b canvas measure := rfl
      simp only [buildRanged, hpc2, hpc, Except.map]
      rw [plot_setSizeIdx_inset b da 2 hins 0]
  · refine ⟨?_, ?_, ?_, ⟨rfl, rfl⟩, rfl, ?_⟩
    · rw [slot_assemble]
      simp only [labelArea]
      rw [if_pos ⟨hins, by omega⟩, assemble_plot, gridCell_center]
    · simp only [axisExtent, insetRect, rectWithin, Rect.w, Rect.h] at hfit ⊢
      omega
    · simp only [axisExtent, insetRect, Rect.w, Rect.h]
      omega
    · have hpc2 : postCanvas (b.setSizeIdx 3 0) canvas measure =
          postCanvas b canvas measure := rfl
      simp only [buildRanged, hpc2, hpc, Except.map]
      rw [plot_setSizeIdx_inset b da 3 hins 0]

/-- Builder with a top inset label area of size 40 and nothing else set. -/
def insetSample : ChartBuilder Unit :=
  (ChartBuilder.on.top_x_label_area_size 40).inset_top_x_labels

/-- Context produced by building `insetSample` on an 800 by 600 canvas. -/
def insetSampleCtx : ChartContext :=
  { x_label_area := (some ⟨0, 0, 800, 40⟩, none)
    y_label_area := (none, none)
    plot := ⟨0, 0, 800, 600⟩
    pixel_range := ((0, 800), (600, 0)) }

/-- Counterexample to C1 as stated: on a 10 by 10 canvas with a top inset
label of configured size 20, the build succeeds with interior of height 10,
yet the produced top label rectangle has height 20 and is not contained in
the interior bounding box. -/
theorem C1_counterexample :
    (buildRanged ((ChartBuilder.on.top_x_label_area_size 20).inset_top_x_labels :
        ChartBuilder Unit) ⟨0, 0, 10, 10⟩ (Except.ok 0 : Except Nat Nat)).2 =
      Except.ok { x_label_area := (some ⟨0, 0, 10, 20⟩, none),
                  y_label_area := (none, none),
                  plot := ⟨0, 0, 10, 10⟩,
                  pixel_range := ((0, 10), (10, 0)) } ∧
    ((ChartBuilder.on.top_x_label_area_size 20).inset_top_x_labels :
        ChartBuilder Unit).label_area_inset.get 0 = true ∧
    0 < ((ChartBuilder.on.top_x_label_area_size 20).inset_top_x_labels :
        ChartBuilder Unit).label_area_size.get 0 ∧
    ¬ rectWithin (⟨0, 0, 10, 20⟩ : Rect) (⟨0, 0, 10, 10⟩ : Rect) :=
  ⟨rfl, rfl, by decide, fun hcon => absurd hcon.2.2.2 (by decide)⟩

/-- Witness for the amended C1, at the top position of `insetSample` built
on an 800 by 600 canvas. -/
theorem C1_amended_witness :
    insetSample.label_area_inset.get 0 = true ∧
    0 < insetSample.label_area_size.get 0 ∧
    (buildRanged insetSample ⟨0, 0, 800, 600⟩ (Except.ok 0 : Except Nat Nat)).2 =
      Except.ok insetSampleCtx ∧
    insetSample.label_area_size.get 0 ≤ axisExtent 0 insetSampleCtx.plot ∧
    (insetSampleCtx.slot 0 =
        some (insetRect insetSampleCtx.plot 0 (insetSample.label_area_size.get 0)) ∧
      rectWithin (insetRect insetSampleCtx.plot 0 (insetSample.label_area_size.get 0))
        insetSampleCtx.plot ∧
      axisExtent 0 (insetRect insetSampleCtx.plot 0 (insetSample.label_area_size.get 0)) =
        insetSample.label_area_size.get 0 ∧
      fullPerpSpan 0 (insetRect insetSampleCtx.plot 0 (insetSample.label_area_size.get 0))
        insetSampleCtx.plot ∧
      flushAtEdge 0 (insetRect insetSampleCtx.plot 0 (insetSample.label_area_size.get 0))
        insetSampleCtx.plot ∧
      Except.map ChartContext.plot
          ((buildRanged (insetSample.setSizeIdx 0 0) ⟨0, 0, 800, 600⟩
            (Except.ok 0 : Except Nat Nat)).2) =
        Except.ok insetSampleCtx.plot) :=
  ⟨rfl, by decide, rfl, by decide,
    C1_amended insetSample ⟨0, 0, 800, 600⟩ (Except.ok 0 : Except Nat Nat) 0
      insetSampleCtx rfl (by decide) rfl (by decide)⟩

/-- Witness for C3, with the four label sizes 10, 20, 30, 40 on an 800 by
600 canvas with no margins and no title. -/
theorem C3_axis_sum_witness :
    ((((ChartBuilder.on.top_x_label_area_size 10).x_label_area_size 20).y_label_area_size
        30).right_y_label_area_size 40 : ChartBuilder Unit).label_area_inset =
      ⟨false, false, false, false⟩ ∧
    (∀ idx : Fin 4, 0 ≤ ((((ChartBuilder.on.top_x_label_area_size 10).x_label_area_size
        20).y_label_area_size 30).right_y_label_area_size 40 :
        ChartBuilder Unit).label_area_size.get idx) ∧
    postCanvas ((((ChartBuilder.on.top_x_label_area_size 10).x_label_area_size
          20).y_label_area_size 30).right_y_label_area_size 40 : ChartBuilder Unit)
        ⟨0, 0, 800, 600⟩ (Except.ok 0 : Except Nat Nat) =
      Except.ok (⟨0, 0, 800, 600⟩ : Rect) ∧
    (0 : Int) ≤ (⟨0, 0, 800, 600⟩ : Rect).w ∧ (⟨0, 0, 800, 600⟩ : Rect).w < 2147483648 ∧
    (0 : Int) ≤ (⟨0, 0, 800, 600⟩ : Rect).h ∧ (⟨0, 0, 800, 600⟩ : Rect).h < 2147483648 ∧
    (30 : Int) + 40 ≤ (⟨0, 0, 800, 600⟩ : Rect).w ∧
    (10 : Int) + 20 ≤ (⟨0, 0, 800, 600⟩ : Rect).h ∧
    ({ x_label_area := (some ⟨30, 0, 760, 10⟩, some ⟨30, 580, 760, 600⟩),
       y_label_area := (some ⟨0, 10, 30, 580⟩, some ⟨760, 10, 800, 580⟩),
       plot := ⟨30, 10, 760, 580⟩,
       pixel_range := ((30, 760), (580, 10)) } : ChartContext).plot.w +
        ((30 : Int) + 40) = (⟨0, 0, 800, 600⟩ : Rect).w ∧
    ({ x_label_area := (some ⟨30, 0, 760, 10⟩, some ⟨30, 580, 760, 600⟩),
       y_label_area := (some ⟨0, 10, 30, 580⟩, some ⟨760, 10, 800, 580⟩),
       plot := ⟨30, 10, 760, 580⟩,
       pixel_range := ((30, 760), (580, 10)) } : ChartContext).plot.h +
        ((10 : Int) + 20) = (⟨0, 0, 800, 600⟩ : Rect).h :=
  ⟨rfl, by decide, rfl, by decide, by decide, by decide, by decide, by decide, by decide,
    C3_axis_sum ((((ChartBuilder.on.top_x_label_area_size 10).x_label_area_size
        20).y_label_area_size 30).right_y_label_area_size 40 : ChartBuilder Unit)
      ⟨0, 0, 800, 600⟩ (Except.ok 0 : Except Nat Nat) ⟨0, 0, 800, 600⟩
      { x_label_area := (some ⟨30, 0, 760, 10⟩, some ⟨30, 580, 760, 600⟩)
        y_label_area := (some ⟨0, 10, 30, 580⟩, some ⟨760, 10, 800, 580⟩)
        plot := ⟨30, 10, 760, 580⟩
        pixel_range := ((30, 760), (580, 10)) }
      rfl (by decide) rfl (by decide) (by decide) (by decide) (by decide) (by decide)
      (by decide) rfl⟩

/-- Witness for C4, at the left position (size 0) of a builder with only a
bottom label area, built on a 400 by 300 canvas. -/
theorem C4_zero_size_absent_witness :
    postCanvas (ChartBuilder.on.x_label_area_size 50 : ChartBuilder Unit)
        ⟨0, 0, 400, 300⟩ (Except.ok 0 : Except Nat Nat) =
      Except.ok (⟨0, 0, 400, 300⟩ : Rect) ∧
    (0 : Int) ≤ (⟨0, 0, 400, 300⟩ : Rect).w ∧ (⟨0, 0, 400, 300⟩ : Rect).w < 2147483648 ∧
    (0 : Int) ≤ (⟨0, 0, 400, 300⟩ : Rect).h ∧ (⟨0, 0, 400, 300⟩ : Rect).h < 2147483648 ∧
    (ChartBuilder.on.x_label_area_size 50 :
      ChartBuilder Unit).label_area_size.get 2 = 0 ∧
    (buildRanged (ChartBuilder.on.x_label_area_size 50 : ChartBuilder Unit)
        ⟨0, 0, 400, 300⟩ (Except.ok 0 : Except Nat Nat)).2 =
      Except.ok { x_label_area := (none, some ⟨0, 250, 400, 300⟩),
                  y_label_area := (none, none),
                  plot := ⟨0, 0, 400, 250⟩,
                  pixel_range := ((0, 400), (250, 0)) } ∧
    ({ x_label_area := (none, some ⟨0, 250, 400, 300⟩),
       y_label_area := (none, none),
       plot := ⟨0, 0, 400, 250⟩,
       pixel_range := ((0, 400), (250, 0)) } : ChartContext).slot 2 = none :=
  ⟨rfl, by decide, by decide, by decide, by decide, rfl, rfl,
    C4_zero_size_absent (ChartBuilder.on.x_label_area_size 50 : ChartBuilder Unit)
      ⟨0, 0, 400, 300⟩ (Except.ok 0 : Except Nat Nat) ⟨0, 0, 400, 300⟩
      { x_label_area := (none, some ⟨0, 250, 400, 300⟩)
        y_label_area := (none, none)
        plot := ⟨0, 0, 400, 250⟩
        pixel_range := ((0, 400), (250, 0)) }
      2 rfl (by decide) (by decide) (by decide) (by decide) rfl rfl⟩

end ChartLayout
